import Mathlib

/-!
Shallow embedding of `src/pypomes_ldap/ldap_pomes.py` (PyPomes-LDAP).

The module is a facade over the python-ldap client library.  The underlying
library calls (`ldap.initialize`, `simple_bind_s`, `search_s`, `add_s`,
`modify_s`, `delete_s`, `passwd_s`, `unbind_s`) are modelled by an
environment `LdapEnv` that decides, for each call, whether the call raises
and what it returns.  Each embedded operation returns, besides its Python
return value, the caller-supplied error list after the call (the Python code
mutates it only through `errors.append`) and the trace of library calls it
issued, so that claims about writes, cleanup and error accumulation can be
stated as properties of the trace and of the resulting error list.

Byte strings (`bytes`) are modelled as `List Nat`; `None`-able Python values
as `Option`; Python truthiness of the relevant types is made explicit
(`pyTruthyBytes`, `pyTruthyStr`, `List.isEmpty`).  A Python expression that
can raise an uncaught `IndexError` (`entry_list[0]` on an empty list inside
`ldap_modify_user`, `item[0]` inside `ldap_get_values`) is modelled with
`Except Unit`, the `.error` case marking the uncaught exception.
-/

/-- Python `bytes` values. -/
abbrev Bytes := List Nat

/-- An LDAP attribute dictionary: attribute name to list of byte values,
as returned by `search_s` for one entry. -/
abbrev Attrs := List (String × List Bytes)

/-- A modification entry `(mode, attribute, value-or-None)` as passed to
`modify_s`. -/
abbrev ModEntry := Nat × String × Option Bytes

/-- `ldap.MOD_ADD`. -/
def MOD_ADD : Nat := 0
/-- `ldap.MOD_DELETE`. -/
def MOD_DELETE : Nat := 1
/-- `ldap.MOD_REPLACE`. -/
def MOD_REPLACE : Nat := 2

/-- `ldap.SCOPE_BASE`. -/
def SCOPE_BASE : Nat := 0
/-- `ldap.SCOPE_ONELEVEL`. -/
def SCOPE_ONELEVEL : Nat := 1

/-- `dict.get(key)` on an attribute dictionary. -/
def dictGet (d : Attrs) (k : String) : Option (List Bytes) :=
  (d.find? (fun p => p.1 == k)).map Prod.snd

/-- Python truthiness of a `bytes | None` value: `None` and `b""` are falsy. -/
def pyTruthyBytes : Option Bytes → Bool
  | none => false
  | some v => !v.isEmpty

/-- Python truthiness of a `list | None` value: `None` and `[]` are falsy. -/
def pyTruthyList : Option (List Bytes) → Bool
  | none => false
  | some l => !l.isEmpty

/-- Python truthiness of a `str | None` value: `None` and `""` are falsy. -/
def pyTruthyStr : Option String → Bool
  | none => false
  | some s => !s.isEmpty

/-- Python `x or d` for an optional integer argument (used for `scope`):
`None` and `0` give the default. -/
def pyOrNat (v : Option Nat) (d : Nat) : Nat :=
  match v with
  | none => d
  | some n => if n = 0 then d else n

/-- Python `x or d` for an optional string argument (used for `filter_str`):
`None` and `""` give the default. -/
def pyOrStr (v : Option String) (d : String) : String :=
  match v with
  | none => d
  | some s => if s.isEmpty then d else s

/-- `bytes.decode()`. -/
def bytesDecode (b : Bytes) : String :=
  String.mk (b.map Char.ofNat)

/-- `str.encode()`. -/
def strEncode (s : String) : Bytes :=
  s.toList.map Char.toNat

/-- A single-quote character, used in the not-found error message. -/
def sglQuote : String := String.singleton (Char.ofNat 39)

/-- One call into the underlying python-ldap library. -/
inductive LdapEvent
  /-- `ldap.initialize` succeeded: a connection handle was obtained. -/
  | initConn (uri : String)
  /-- `simple_bind_s(who, cred)` was attempted. -/
  | bindReq (dn : String) (pwd : String)
  /-- `unbind_s()` was called. -/
  | unbindReq
  /-- `search_s(base, scope, filterstr, attrlist, attrsonly)` was called. -/
  | searchReq (base : String) (scope : Nat) (filt : String)
      (attrs : List String) (attrsOnly : Nat)
  /-- `add_s(dn, modlist)` was called. -/
  | addReq (dn : String)
  /-- `modify_s(dn, modlist)` was called. -/
  | modifyReq (dn : String) (mods : List ModEntry)
  /-- `delete_s(dn)` was called. -/
  | deleteReq (dn : String)
  /-- `passwd_s(user, oldpw, newpw, extract_newpw=True)` was called. -/
  | passwdReq (user : String) (oldpw : Option String) (newpw : String)
  deriving Repr, DecidableEq

/-- The environment: configuration constants plus the behaviour of every
underlying library call (`Option String` failure slots hold the formatted
exception message produced by `__ldap_except_msg`; `Except String` results
either return a value or raise with that message). -/
structure LdapEnv where
  /-- `LDAP_BASE_DN`. -/
  baseDN : String
  /-- `LDAP_BIND_DN`. -/
  bindDN : String
  /-- `LDAP_BIND_PWD`. -/
  bindPwd : String
  /-- `conn._uri`, the server URI the handle was initialized with. -/
  uri : String
  /-- `ldap.initialize` + `set_option` calls (and the trace-file open):
  `none` means a handle is obtained, `some m` means an exception with
  formatted message `m`. -/
  initErr : Option String
  /-- `simple_bind_s(who, cred)`: `none` means success. -/
  bindErr : String → String → Option String
  /-- `unbind_s()` (and the trace-file close): `none` means success. -/
  unbindErr : Option String
  /-- `search_s(base, scope, filterstr, attrlist, attrsonly)`. -/
  searchFn : String → Nat → String → List String → Nat →
      Except String (List (String × Attrs))
  /-- `add_s(dn, modlist)`, keyed by the DN and the attribute dictionary
  the modlist was computed from (`ldap.modlist.addModlist` itself is library
  code and stays opaque). -/
  addFn : String → Attrs → Except String Unit
  /-- `modify_s(dn, modlist)`. -/
  modifyFn : String → List ModEntry → Except String Unit
  /-- `delete_s(dn)`. -/
  deleteFn : String → Except String Unit
  /-- `passwd_s(user, oldpw, newpw, extract_newpw=True)`: on success returns
  the second component of the response pair (the new password as bytes). -/
  passwdFn : String → Option String → String → Except String Bytes

/-- Python `s.startswith(pre)`: the character sequence of `pre` is a prefix
of that of `s`. -/
def strStartsWith (s pre : String) : Bool :=
  pre.data.isPrefixOf s.data

/-- `__is_secure(conn)`: `conn._uri.startswith("ldaps:")`. -/
def isSecure (env : LdapEnv) : Bool :=
  strStartsWith env.uri "ldaps:"

/-- `ldap_init(errors, ...)`: obtain and configure the client handle.
Returns the handle (`some ()` when obtained), the error list and the trace. -/
def ldap_init (env : LdapEnv) (errors : List String) :
    Option Unit × List String × List LdapEvent :=
  match env.initErr with
  | none => (some (), errors, [.initConn env.uri])
  | some m => (none, errors ++ ["Error initializing the LDAP client: " ++ m], [])

/-- `ldap_bind(errors, ldap_client, bind_dn, bind_pwd)`: returns `True` iff
the bind succeeded. -/
def ldap_bind (env : LdapEnv) (errors : List String) (bind_dn bind_pwd : String) :
    Bool × List String × List LdapEvent :=
  match env.bindErr bind_dn bind_pwd with
  | none => (true, errors, [.bindReq bind_dn bind_pwd])
  | some m =>
      (false, errors ++ ["Error binding with the LDAP server: " ++ m],
       [.bindReq bind_dn bind_pwd])

/-- `ldap_unbind(errors, ldap_client)`. -/
def ldap_unbind (env : LdapEnv) (errors : List String) :
    List String × List LdapEvent :=
  match env.unbindErr with
  | none => (errors, [.unbindReq])
  | some m =>
      (errors ++ ["Error unbinding with the LDAP server: " ++ m], [.unbindReq])

/-- The shared wrapper pattern of every directory operation:
obtain the handle (`ldap_init`), bind it when obtained (`ldap_bind` with the
given credentials), run the action only when the accumulated error list is
empty (`if not errors:`), and unbind when — and only when — the bind
succeeded (`if bound:`). -/
def opWrapper {α : Type} (env : LdapEnv) (errors : List String)
    (bdn bpwd : String)
    (action : List String → α × List String × List LdapEvent)
    (dflt : α) : α × List String × List LdapEvent :=
  let i := ldap_init env errors
  let b := match i.1 with
    | some _ => ldap_bind env i.2.1 bdn bpwd
    | none => (false, i.2.1, [])
  let a := if b.2.1.isEmpty then action b.2.1 else (dflt, b.2.1, [])
  let u := if b.1 then ldap_unbind env a.2.1 else (a.2.1, [])
  (a.1, u.1, i.2.2 ++ b.2.2 ++ a.2.2 ++ u.2)

/-- The `try` block of `ldap_add_entry`: submit `add_s` and catch its
exception. -/
def addAction (env : LdapEnv) (entry_dn : String) (attrs : Attrs)
    (errs : List String) :
    Unit × List String × List LdapEvent :=
  match env.addFn entry_dn attrs with
  | .ok _ => ((), errs, [.addReq entry_dn])
  | .error m =>
      ((), errs ++ ["Error on the LDAP add entry operation: " ++ m],
       [.addReq entry_dn])

/-- `ldap_add_entry(errors, entry_dn, attrs)`. -/
def ldap_add_entry (env : LdapEnv) (errors : List String) (entry_dn : String)
    (attrs : Attrs) : List String × List LdapEvent :=
  (opWrapper env errors env.bindDN env.bindPwd
    (addAction env entry_dn attrs) ()).2

/-- The `try` block of `ldap_modify_entry`: submit `modify_s` and catch its
exception. -/
def modifyAction (env : LdapEnv) (entry_dn : String) (mod_entry : List ModEntry)
    (errs : List String) : Unit × List String × List LdapEvent :=
  match env.modifyFn entry_dn mod_entry with
  | .ok _ => ((), errs, [.modifyReq entry_dn mod_entry])
  | .error m =>
      ((), errs ++ ["Error on the LDAP modify entry operation: " ++ m],
       [.modifyReq entry_dn mod_entry])

/-- `ldap_modify_entry(errors, entry_dn, mod_entry)`. -/
def ldap_modify_entry (env : LdapEnv) (errors : List String) (entry_dn : String)
    (mod_entry : List ModEntry) : List String × List LdapEvent :=
  (opWrapper env errors env.bindDN env.bindPwd
    (modifyAction env entry_dn mod_entry) ()).2

/-- The `try` block of `ldap_delete_entry`: submit `delete_s` and catch its
exception. -/
def deleteAction (env : LdapEnv) (entry_dn : String) (errs : List String) :
    Unit × List String × List LdapEvent :=
  match env.deleteFn entry_dn with
  | .ok _ => ((), errs, [.deleteReq entry_dn])
  | .error m =>
      ((), errs ++ ["Error on the LDAP delete entry operation: " ++ m],
       [.deleteReq entry_dn])

/-- `ldap_delete_entry(errors, entry_dn)`. -/
def ldap_delete_entry (env : LdapEnv) (errors : List String) (entry_dn : String) :
    List String × List LdapEvent :=
  (opWrapper env errors env.bindDN env.bindPwd (deleteAction env entry_dn) ()).2

/-- The `try` block of `ldap_search`: submit `search_s` with the defaulted
arguments (`scope or ldap.SCOPE_BASE`, `filter_str or "(objectClass=*)"`,
`attr_vals = 1 if attrs_only else 0`) and catch its exception. -/
def searchAction (env : LdapEnv) (base_dn : String) (attrs : List String)
    (scope : Option Nat) (filter_str : Option String) (attrs_only : Bool)
    (errs : List String) :
    Option (List (String × Attrs)) × List String × List LdapEvent :=
  let escope := pyOrNat scope SCOPE_BASE
  let efilt := pyOrStr filter_str "(objectClass=*)"
  let attr_vals : Nat := if attrs_only then 1 else 0
  match env.searchFn base_dn escope efilt attrs attr_vals with
  | .ok r => (some r, errs, [.searchReq base_dn escope efilt attrs attr_vals])
  | .error m =>
      (none, errs ++ ["Error on the LDAP search operation: " ++ m],
       [.searchReq base_dn escope efilt attrs attr_vals])

/-- `ldap_search(errors, base_dn, attrs, scope=None, filter_str=None,
attrs_only=False)`.  `scope or ldap.SCOPE_BASE` and
`filter_str or "(objectClass=*)"` supply the defaults;
`attr_vals = 1 if attrs_only else 0`. -/
def ldap_search (env : LdapEnv) (errors : List String) (base_dn : String)
    (attrs : List String) (scope : Option Nat) (filter_str : Option String)
    (attrs_only : Bool) :
    Option (List (String × Attrs)) × List String × List LdapEvent :=
  opWrapper env errors env.bindDN env.bindPwd
    (searchAction env base_dn attrs scope filter_str attrs_only) none

/-- The not-found message of `ldap_modify_user`:
`f"Error on the LDAP modify user operation: User '{user_id}' not found"`. -/
def muNotFoundMsg (user_id : String) : String :=
  "Error on the LDAP modify user operation: User " ++ sglQuote ++ user_id
    ++ sglQuote ++ " not found"

/-- One iteration of the modification-list loop of `ldap_modify_user` for the
pair `(attr_name, new_value)` against the entry dictionary `d`:
`.error ()` models the uncaught `IndexError` of `entry_list[0]` on an empty
list; `.ok none` appends nothing; `.ok (some e)` appends `e`. -/
def modEntryFor (d : Attrs) (attr_name : String) (new_value : Option Bytes) :
    Except Unit (Option ModEntry) :=
  let entry_list := dictGet d attr_name
  if pyTruthyBytes new_value then
    match entry_list with
    | none => .ok (some (MOD_ADD, attr_name, new_value))
    | some [] => .error ()
    | some (c :: _) =>
        if new_value = some c then .ok none
        else .ok (some (MOD_REPLACE, attr_name, new_value))
  else
    if pyTruthyList entry_list then .ok (some (MOD_DELETE, attr_name, none))
    else .ok none

/-- The whole modification-list loop of `ldap_modify_user`. -/
def buildModEntries (d : Attrs) : List (String × Option Bytes) →
    Except Unit (List ModEntry)
  | [] => .ok []
  | (attr_name, new_value) :: rest => do
    let h ← modEntryFor d attr_name new_value
    let t ← buildModEntries d rest
    pure (match h with
      | some e => e :: t
      | none => t)

/-- `ldap_modify_user(errors, user_id, attrs)`.  The Boolean component is
`true` iff the Python call raises an uncaught `IndexError` while building the
modification list (in which case the error list and trace are those
accumulated up to the raise). -/
def ldap_modify_user (env : LdapEnv) (errors : List String) (user_id : String)
    (attrs : List (String × Option Bytes)) :
    Bool × List String × List LdapEvent :=
  let s := ldap_search env errors ("cn=users," ++ env.baseDN)
    (attrs.map Prod.fst) (some SCOPE_ONELEVEL) (some ("cn=" ++ user_id)) false
  let sdEmpty : Bool := match s.1 with
    | none => true
    | some l => l.isEmpty
  let errs1 := if sdEmpty then s.2.1 ++ [muNotFoundMsg user_id] else s.2.1
  if errs1.isEmpty then
    match s.1 with
    | some ((entry_dn, d) :: _) =>
        (match buildModEntries d attrs with
         | .error _ => (true, errs1, s.2.2)
         | .ok mods =>
             if mods.length > 0 then
               let r := ldap_modify_entry env errs1 entry_dn mods
               (false, r.1, s.2.2 ++ r.2)
             else (false, errs1, s.2.2))
    | _ => (false, errs1, s.2.2)
  else (false, errs1, s.2.2)

/-- The modification list submitted by the insecure branch of
`ldap_change_pwd`: `[(ldap.MOD_REPLACE, "userpassword", new_pwd.encode())]`. -/
def pwdModList (new_pwd : String) : List ModEntry :=
  [(MOD_REPLACE, "userpassword", some (strEncode new_pwd))]

/-- The `try` block of `ldap_change_pwd`: `passwd_s` over a secure
connection, a direct `modify_s` of `userpassword` otherwise. -/
def changePwdAction (env : LdapEnv) (user_dn new_pwd : String)
    (curr_pwd : Option String) (errs : List String) :
    Option String × List String × List LdapEvent :=
  if isSecure env then
    match env.passwdFn user_dn curr_pwd new_pwd with
    | .ok resp =>
        (some (bytesDecode resp), errs, [.passwdReq user_dn curr_pwd new_pwd])
    | .error m =>
        (none, errs ++ ["Error on the LDAP password change operation: " ++ m],
         [.passwdReq user_dn curr_pwd new_pwd])
  else
    match env.modifyFn user_dn (pwdModList new_pwd) with
    | .ok _ =>
        (some new_pwd, errs, [.modifyReq user_dn (pwdModList new_pwd)])
    | .error m =>
        (none, errs ++ ["Error on the LDAP password change operation: " ++ m],
         [.modifyReq user_dn (pwdModList new_pwd)])

/-- `ldap_change_pwd(errors, user_dn, new_pwd, curr_pwd=None)`.  When
`curr_pwd` is truthy the bind uses `(user_dn, curr_pwd)`, otherwise the
default credentials; the action uses `passwd_s` when `__is_secure` holds and
`modify_s` otherwise. -/
def ldap_change_pwd (env : LdapEnv) (errors : List String) (user_dn : String)
    (new_pwd : String) (curr_pwd : Option String) :
    Option String × List String × List LdapEvent :=
  let bdn := if pyTruthyStr curr_pwd then user_dn else env.bindDN
  let bpw := if pyTruthyStr curr_pwd then curr_pwd.getD "" else env.bindPwd
  opWrapper env errors bdn bpw
    (changePwdAction env user_dn new_pwd curr_pwd) none

/-- `ldap_get_value_list(errors, entry_dn, attr)`. -/
def ldap_get_value_list (env : LdapEnv) (errors : List String)
    (entry_dn : String) (attr : String) :
    Option (List Bytes) × List String × List LdapEvent :=
  let s := ldap_search env errors entry_dn [attr] none none false
  match s.1 with
  | some ((_, d) :: _) => (dictGet d attr, s.2.1, s.2.2)
  | _ => (none, s.2.1, s.2.2)

/-- `ldap_get_value(errors, entry_dn, attr)`:
`data[0] if isinstance(data, list) and len(data) > 0 else None`. -/
def ldap_get_value (env : LdapEnv) (errors : List String)
    (entry_dn : String) (attr : String) :
    Option Bytes × List String × List LdapEvent :=
  let r := ldap_get_value_list env errors entry_dn attr
  (match r.1 with
   | some (b :: _) => some b
   | _ => none, r.2.1, r.2.2)

/-- `ldap_add_value(errors, entry_dn, attr, value)`. -/
def ldap_add_value (env : LdapEnv) (errors : List String)
    (entry_dn : String) (attr : String) (value : Bytes) :
    List String × List LdapEvent :=
  ldap_modify_entry env errors entry_dn [(MOD_ADD, attr, some value)]

/-- `ldap_set_value(errors, entry_dn, attr, value)`: read the current value,
determine the modification mode with `is None` tests and an inequality test,
and modify only when a mode was determined. -/
def ldap_set_value (env : LdapEnv) (errors : List String)
    (entry_dn : String) (attr : String) (value : Option Bytes) :
    List String × List LdapEvent :=
  let g := ldap_get_value env errors entry_dn attr
  if g.2.1.isEmpty then
    let mode : Option Nat :=
      match g.1 with
      | none =>
          (match value with
           | some _ => some MOD_ADD
           | none => none)
      | some c =>
          (match value with
           | none => some MOD_DELETE
           | some v => if c ≠ v then some MOD_REPLACE else none)
    match mode with
    | some m =>
        let r := ldap_modify_entry env g.2.1 entry_dn [(m, attr, value)]
        (r.1, g.2.2 ++ r.2)
    | none => (g.2.1, g.2.2)
  else (g.2.1, g.2.2)

/-- `ldap_get_values_lists(errors, entry_dn, attrs)`. -/
def ldap_get_values_lists (env : LdapEnv) (errors : List String)
    (entry_dn : String) (attrs : List String) :
    Option (List (Option (List Bytes))) × List String × List LdapEvent :=
  let s := ldap_search env errors entry_dn attrs none none false
  match s.1 with
  | some ((_, d) :: _) => (some (attrs.map (dictGet d)), s.2.1, s.2.2)
  | _ => (none, s.2.1, s.2.2)

/-- `item if item is None else item[0]` inside `ldap_get_values`:
`.error ()` models the uncaught `IndexError` on an empty list. -/
def firstOrNone : Option (List Bytes) → Except Unit (Option Bytes)
  | none => .ok none
  | some [] => .error ()
  | some (b :: _) => .ok (some b)

/-- `ldap_get_values(errors, entry_dn, attrs)`.  The Boolean component is
`true` iff the Python list comprehension raises an uncaught `IndexError`. -/
def ldap_get_values (env : LdapEnv) (errors : List String)
    (entry_dn : String) (attrs : List String) :
    Bool × Option (List (Option Bytes)) × List String × List LdapEvent :=
  let s := ldap_get_values_lists env errors entry_dn attrs
  match s.1 with
  | some items =>
      (match items.mapM firstOrNone with
       | .ok vals => (false, some vals, s.2.1, s.2.2)
       | .error _ => (true, none, s.2.1, s.2.2))
  | none => (false, none, s.2.1, s.2.2)

/-- Is this library call a directory write (a mutation attempt)? -/
def isWrite : LdapEvent → Bool
  | .addReq _ => true
  | .modifyReq _ _ => true
  | .deleteReq _ => true
  | .passwdReq _ _ _ => true
  | _ => false

/-- Is this library call an operation action step (anything other than the
connect/bind/unbind bracketing)? -/
def isAction : LdapEvent → Bool
  | .searchReq _ _ _ _ _ => true
  | e => isWrite e

/-- Is this library call an `unbind_s`? -/
def isUnbind : LdapEvent → Bool
  | .unbindReq => true
  | _ => false

/-- Count of `unbind_s` calls in a trace. -/
def unbindCount (t : List LdapEvent) : Nat :=
  t.countP (fun e => isUnbind e)

/-- An action step is never the connect/bind/unbind bracketing. -/
theorem isUnbind_of_isAction {e : LdapEvent} (h : isAction e = true) :
    isUnbind e = false := by
  cases e <;> simp [isUnbind] <;> simp [isAction, isWrite] at h

/-- `ldap_init` only appends to the error list. -/
theorem ldap_init_append (env : LdapEnv) (errors : List String) :
    ∃ s, (ldap_init env errors).2.1 = errors ++ s := by
  cases h : env.initErr <;> simp [ldap_init, h]

/-- `ldap_bind` only appends to the error list. -/
theorem ldap_bind_append (env : LdapEnv) (errors : List String)
    (bdn bpwd : String) :
    ∃ s, (ldap_bind env errors bdn bpwd).2.1 = errors ++ s := by
  cases h : env.bindErr bdn bpwd <;> simp [ldap_bind, h]

/-- `ldap_unbind` only appends to the error list. -/
theorem ldap_unbind_append (env : LdapEnv) (errors : List String) :
    ∃ s, (ldap_unbind env errors).1 = errors ++ s := by
  cases h : env.unbindErr <;> simp [ldap_unbind, h]

/-- The wrapper pattern only appends to the error list, provided its action
only appends. -/
theorem opWrapper_append {α : Type} (env : LdapEnv) (errors : List String)
    (bdn bpwd : String)
    (action : List String → α × List String × List LdapEvent) (dflt : α)
    (hact : ∀ errs, ∃ s, (action errs).2.1 = errs ++ s) :
    ∃ s, (opWrapper env errors bdn bpwd action dflt).2.1 = errors ++ s := by
  unfold opWrapper
  cases hinit : env.initErr with
  | none =>
    cases hbind : env.bindErr bdn bpwd with
    | none =>
      simp only [ldap_init, hinit, ldap_bind, hbind]
      by_cases he : errors.isEmpty
      · simp only [he, if_true]
        obtain ⟨s1, hs1⟩ := hact errors
        obtain ⟨s2, hs2⟩ := ldap_unbind_append env (action errors).2.1
        rw [hs1] at hs2
        exact ⟨s1 ++ s2, by rw [hs1, hs2, List.append_assoc]⟩
      · simp only [he, if_false]
        obtain ⟨s2, hs2⟩ := ldap_unbind_append env errors
        exact ⟨s2, hs2⟩
    | some m =>
      have hne : (errors ++ ["Error binding with the LDAP server: " ++ m]).isEmpty
          = false := by cases errors <;> rfl
      simp [ldap_init, hinit, ldap_bind, hbind, hne]
  | some m =>
    have hne : (errors ++ ["Error initializing the LDAP client: " ++ m]).isEmpty
        = false := by cases errors <;> rfl
    simp [ldap_init, hinit, hne]

/-- When the caller-supplied error list is non-empty, the wrapper never runs
its action step: every event in the trace is bracketing, provided the action
emits only action events. -/
theorem opWrapper_skip {α : Type} (env : LdapEnv) (errors : List String)
    (bdn bpwd : String)
    (action : List String → α × List String × List LdapEvent) (dflt : α)
    (herr : errors ≠ []) :
    ∀ e ∈ (opWrapper env errors bdn bpwd action dflt).2.2, isAction e = false := by
  unfold opWrapper
  have hne : errors.isEmpty = false := by
    cases errors with
    | nil => exact absurd rfl herr
    | cons a l => rfl
  cases hinit : env.initErr with
  | none =>
    cases hbind : env.bindErr bdn bpwd with
    | none =>
      simp only [ldap_init, hinit, ldap_bind, hbind, hne, if_false]
      cases hu : env.unbindErr
      · simp only [ldap_unbind, hu]
        intro e he
        simp at he
        rcases he with rfl | rfl | rfl <;> rfl
      · simp only [ldap_unbind, hu]
        intro e he
        simp at he
        rcases he with rfl | rfl | rfl <;> rfl
    | some m =>
      have hne2 : (errors ++ ["Error binding with the LDAP server: " ++ m]).isEmpty
          = false := by
        cases errors <;> rfl
      simp only [ldap_init, hinit, ldap_bind, hbind, hne2, if_false]
      intro e he
      simp at he
      rcases he with rfl | rfl <;> rfl
  | some m =>
    have hne2 : (errors ++ ["Error initializing the LDAP client: " ++ m]).isEmpty
        = false := by
      cases errors <;> rfl
    simp only [ldap_init, hinit, hne2, if_false]
    simp

/-- When the caller-supplied error list is non-empty but the handle is
obtained, connection initialization and bind are still attempted. -/
theorem opWrapper_still_binds {α : Type} (env : LdapEnv) (errors : List String)
    (bdn bpwd : String)
    (action : List String → α × List String × List LdapEvent) (dflt : α)
    (hinit : env.initErr = none) :
    LdapEvent.initConn env.uri ∈ (opWrapper env errors bdn bpwd action dflt).2.2
    ∧ LdapEvent.bindReq bdn bpwd ∈ (opWrapper env errors bdn bpwd action dflt).2.2 := by
  unfold opWrapper
  cases hbind : env.bindErr bdn bpwd <;>
    simp [ldap_init, hinit, ldap_bind, hbind]

/-- The wrapper calls `unbind_s` exactly once when the handle was obtained
and the bind succeeded, and never otherwise, provided the action emits only
action events. -/
theorem opWrapper_unbind {α : Type} (env : LdapEnv) (errors : List String)
    (bdn bpwd : String)
    (action : List String → α × List String × List LdapEvent) (dflt : α)
    (hact : ∀ errs e, e ∈ (action errs).2.2 → isAction e = true) :
    unbindCount (opWrapper env errors bdn bpwd action dflt).2.2
      = if env.initErr = none ∧ env.bindErr bdn bpwd = none then 1 else 0 := by
  unfold opWrapper
  have hzero : ∀ errs, unbindCount (action errs).2.2 = 0 := by
    intro errs
    refine List.countP_eq_zero.mpr ?_
    intro e he
    simpa [isUnbind_of_isAction (hact errs e he)]
  cases hinit : env.initErr with
  | none =>
    cases hbind : env.bindErr bdn bpwd with
    | none =>
      simp only [ldap_init, hinit, ldap_bind, hbind]
      have hz := hzero errors
      have p1 : isUnbind (LdapEvent.initConn env.uri) = false := rfl
      have p2 : isUnbind (LdapEvent.bindReq bdn bpwd) = false := rfl
      have p3 : isUnbind LdapEvent.unbindReq = true := rfl
      unfold unbindCount at hz ⊢
      by_cases he : errors.isEmpty <;>
        cases hu : env.unbindErr <;>
          simp [he, ldap_unbind, hu, List.countP_append, List.countP_cons,
                p1, p2, p3, hinit, hbind, hz]
    | some m =>
      have hne : (errors ++ ["Error binding with the LDAP server: " ++ m]).isEmpty
          = false := by
        cases errors <;> rfl
      have p1 : isUnbind (LdapEvent.initConn env.uri) = false := rfl
      have p2 : isUnbind (LdapEvent.bindReq bdn bpwd) = false := rfl
      simp [ldap_init, hinit, ldap_bind, hbind, hne, unbindCount,
            List.countP_append, List.countP_cons, p1, p2]
  | some m =>
    have hne : (errors ++ ["Error initializing the LDAP client: " ++ m]).isEmpty
        = false := by
      cases errors <;> rfl
    simp [ldap_init, hinit, hne, unbindCount, List.countP_append,
          List.countP_cons]

/-- When the handle is obtained, the bind succeeds and the caller-supplied
error list is empty, the wrapper runs its action on the empty list and the
run is fully determined by the action. -/
theorem opWrapper_success {α : Type} (env : LdapEnv)
    (bdn bpwd : String)
    (action : List String → α × List String × List LdapEvent) (dflt : α)
    (hinit : env.initErr = none) (hbind : env.bindErr bdn bpwd = none) :
    opWrapper env [] bdn bpwd action dflt =
      ((action []).1, (ldap_unbind env (action []).2.1).1,
       LdapEvent.initConn env.uri :: LdapEvent.bindReq bdn bpwd ::
         ((action []).2.2 ++ [LdapEvent.unbindReq])) := by
  unfold opWrapper
  cases hu : env.unbindErr <;>
    simp [ldap_init, hinit, ldap_bind, hbind, ldap_unbind, hu]

/-- `ldap_add_entry` only appends to the error list. -/
theorem ldap_add_entry_append (env : LdapEnv) (errors : List String)
    (entry_dn : String) (attrs : Attrs) :
    ∃ s, (ldap_add_entry env errors entry_dn attrs).1 = errors ++ s := by
  unfold ldap_add_entry
  refine opWrapper_append _ _ _ _ _ _ ?_
  intro errs
  cases h : env.addFn entry_dn attrs with
  | ok v => exact ⟨[], by simp [addAction, h]⟩
  | error m =>
      exact ⟨["Error on the LDAP add entry operation: " ++ m],
        by simp [addAction, h]⟩

/-- `ldap_modify_entry` only appends to the error list. -/
theorem ldap_modify_entry_append (env : LdapEnv) (errors : List String)
    (entry_dn : String) (mod_entry : List ModEntry) :
    ∃ s, (ldap_modify_entry env errors entry_dn mod_entry).1 = errors ++ s := by
  unfold ldap_modify_entry
  refine opWrapper_append _ _ _ _ _ _ ?_
  intro errs
  cases h : env.modifyFn entry_dn mod_entry with
  | ok v => exact ⟨[], by simp [modifyAction, h]⟩
  | error m =>
      exact ⟨["Error on the LDAP modify entry operation: " ++ m],
        by simp [modifyAction, h]⟩

/-- `ldap_delete_entry` only appends to the error list. -/
theorem ldap_delete_entry_append (env : LdapEnv) (errors : List String)
    (entry_dn : String) :
    ∃ s, (ldap_delete_entry env errors entry_dn).1 = errors ++ s := by
  unfold ldap_delete_entry
  refine opWrapper_append _ _ _ _ _ _ ?_
  intro errs
  cases h : env.deleteFn entry_dn with
  | ok v => exact ⟨[], by simp [deleteAction, h]⟩
  | error m =>
      exact ⟨["Error on the LDAP delete entry operation: " ++ m],
        by simp [deleteAction, h]⟩

/-- `ldap_search` only appends to the error list. -/
theorem ldap_search_append (env : LdapEnv) (errors : List String)
    (base_dn : String) (attrs : List String) (scope : Option Nat)
    (filter_str : Option String) (attrs_only : Bool) :
    ∃ s, (ldap_search env errors base_dn attrs scope filter_str attrs_only).2.1
      = errors ++ s := by
  unfold ldap_search
  refine opWrapper_append _ _ _ _ _ _ ?_
  intro errs
  cases h : env.searchFn base_dn (pyOrNat scope SCOPE_BASE)
      (pyOrStr filter_str "(objectClass=*)") attrs
      (if attrs_only then 1 else 0) with
  | ok r => exact ⟨[], by simp [searchAction, h]⟩
  | error m =>
      exact ⟨["Error on the LDAP search operation: " ++ m],
        by simp [searchAction, h]⟩

/-- `ldap_change_pwd` only appends to the error list. -/
theorem ldap_change_pwd_append (env : LdapEnv) (errors : List String)
    (user_dn new_pwd : String) (curr_pwd : Option String) :
    ∃ s, (ldap_change_pwd env errors user_dn new_pwd curr_pwd).2.1
      = errors ++ s := by
  unfold ldap_change_pwd
  refine opWrapper_append _ _ _ _ _ _ ?_
  intro errs
  by_cases hsec : isSecure env
  · cases h : env.passwdFn user_dn curr_pwd new_pwd with
    | ok r => exact ⟨[], by simp [changePwdAction, hsec, h]⟩
    | error m =>
        exact ⟨["Error on the LDAP password change operation: " ++ m],
          by simp [changePwdAction, hsec, h]⟩
  · cases h : env.modifyFn user_dn (pwdModList new_pwd) with
    | ok r => exact ⟨[], by simp [changePwdAction, hsec, h]⟩
    | error m =>
        exact ⟨["Error on the LDAP password change operation: " ++ m],
          by simp [changePwdAction, hsec, h]⟩

/-- `ldap_modify_user` only appends to the error list. -/
theorem ldap_modify_user_append (env : LdapEnv) (errors : List String)
    (user_id : String) (attrs : List (String × Option Bytes)) :
    ∃ s, (ldap_modify_user env errors user_id attrs).2.1 = errors ++ s := by
  unfold ldap_modify_user
  obtain ⟨s1, hs1⟩ := ldap_search_append env errors ("cn=users," ++ env.baseDN)
      (attrs.map Prod.fst) (some SCOPE_ONELEVEL) (some ("cn=" ++ user_id)) false
  set q := ldap_search env errors ("cn=users," ++ env.baseDN)
      (attrs.map Prod.fst) (some SCOPE_ONELEVEL) (some ("cn=" ++ user_id)) false
    with hq
  clear_value q
  obtain ⟨sd, errsq, trq⟩ := q
  simp only at hs1
  subst hs1
  cases sd with
  | none =>
      have hne : ((errors ++ s1) ++ [muNotFoundMsg user_id]).isEmpty = false := by
        cases errors <;> cases s1 <;> rfl
      exact ⟨s1 ++ [muNotFoundMsg user_id], by simp [hne]⟩
  | some l =>
      cases l with
      | nil =>
          have hne : ((errors ++ s1) ++ [muNotFoundMsg user_id]).isEmpty
              = false := by
            cases errors <;> cases s1 <;> rfl
          exact ⟨s1 ++ [muNotFoundMsg user_id], by simp [hne]⟩
      | cons hd tl =>
          obtain ⟨entry_dn, d⟩ := hd
          by_cases he : (errors ++ s1).isEmpty
          · rw [List.isEmpty_iff] at he
            obtain ⟨he1, he2⟩ := List.append_eq_nil.mp he
            subst he1
            subst he2
            cases hb : buildModEntries d attrs with
            | error u => exact ⟨[], by simp [hb]⟩
            | ok mods =>
                by_cases hm : mods.length > 0
                · obtain ⟨s2, hs2⟩ :=
                    ldap_modify_entry_append env [] entry_dn mods
                  exact ⟨s2, by simp [hb, hm, hs2]⟩
                · exact ⟨[], by simp [hb, hm]⟩
          · exact ⟨s1, by simp [he]⟩

/-- `ldap_get_value_list` only appends to the error list. -/
theorem ldap_get_value_list_append (env : LdapEnv) (errors : List String)
    (entry_dn attr : String) :
    ∃ s, (ldap_get_value_list env errors entry_dn attr).2.1 = errors ++ s := by
  unfold ldap_get_value_list
  obtain ⟨s1, hs1⟩ := ldap_search_append env errors entry_dn [attr] none none false
  set q := ldap_search env errors entry_dn [attr] none none false with hq
  clear_value q
  obtain ⟨sd, errsq, trq⟩ := q
  simp only at hs1
  subst hs1
  rcases sd with _ | (_ | ⟨⟨dn0, d⟩, tl⟩)
  · exact ⟨s1, rfl⟩
  · exact ⟨s1, rfl⟩
  · exact ⟨s1, rfl⟩

/-- `ldap_get_value` only appends to the error list. -/
theorem ldap_get_value_append (env : LdapEnv) (errors : List String)
    (entry_dn attr : String) :
    ∃ s, (ldap_get_value env errors entry_dn attr).2.1 = errors ++ s := by
  unfold ldap_get_value
  obtain ⟨s1, hs1⟩ := ldap_get_value_list_append env errors entry_dn attr
  exact ⟨s1, hs1⟩

/-- `ldap_add_value` only appends to the error list. -/
theorem ldap_add_value_append (env : LdapEnv) (errors : List String)
    (entry_dn attr : String) (value : Bytes) :
    ∃ s, (ldap_add_value env errors entry_dn attr value).1 = errors ++ s :=
  ldap_modify_entry_append env errors entry_dn [(MOD_ADD, attr, some value)]

/-- `ldap_set_value` only appends to the error list. -/
theorem ldap_set_value_append (env : LdapEnv) (errors : List String)
    (entry_dn attr : String) (value : Option Bytes) :
    ∃ s, (ldap_set_value env errors entry_dn attr value).1 = errors ++ s := by
  unfold ldap_set_value
  obtain ⟨s1, hs1⟩ := ldap_get_value_append env errors entry_dn attr
  set g := ldap_get_value env errors entry_dn attr with hg
  clear_value g
  obtain ⟨curr, errsg, trg⟩ := g
  simp only at hs1
  subst hs1
  by_cases he : (errors ++ s1).isEmpty
  · rw [List.isEmpty_iff] at he
    obtain ⟨he1, he2⟩ := List.append_eq_nil.mp he
    subst he1
    subst he2
    rcases curr with _ | c
    · cases value with
      | none => exact ⟨[], by simp⟩
      | some v =>
          obtain ⟨s2, hs2⟩ :=
            ldap_modify_entry_append env [] entry_dn [(MOD_ADD, attr, some v)]
          exact ⟨s2, by simpa using hs2⟩
    · cases value with
      | none =>
          obtain ⟨s2, hs2⟩ :=
            ldap_modify_entry_append env [] entry_dn [(MOD_DELETE, attr, none)]
          exact ⟨s2, by simpa using hs2⟩
      | some v =>
          by_cases hcv : c ≠ v
          · obtain ⟨s2, hs2⟩ :=
              ldap_modify_entry_append env [] entry_dn
                [(MOD_REPLACE, attr, some v)]
            exact ⟨s2, by simp [hcv]; simpa using hs2⟩
          · exact ⟨[], by simp [hcv]⟩
  · exact ⟨s1, by simp [he]⟩

/-- `ldap_get_values_lists` only appends to the error list. -/
theorem ldap_get_values_lists_append (env : LdapEnv) (errors : List String)
    (entry_dn : String) (attrs : List String) :
    ∃ s, (ldap_get_values_lists env errors entry_dn attrs).2.1
      = errors ++ s := by
  unfold ldap_get_values_lists
  obtain ⟨s1, hs1⟩ := ldap_search_append env errors entry_dn attrs none none false
  set q := ldap_search env errors entry_dn attrs none none false with hq
  clear_value q
  obtain ⟨sd, errsq, trq⟩ := q
  simp only at hs1
  subst hs1
  rcases sd with _ | (_ | ⟨⟨dn0, d⟩, tl⟩)
  · exact ⟨s1, rfl⟩
  · exact ⟨s1, rfl⟩
  · exact ⟨s1, rfl⟩

/-- `ldap_get_values` only appends to the error list. -/
theorem ldap_get_values_append (env : LdapEnv) (errors : List String)
    (entry_dn : String) (attrs : List String) :
    ∃ s, (ldap_get_values env errors entry_dn attrs).2.2.1 = errors ++ s := by
  unfold ldap_get_values
  obtain ⟨s1, hs1⟩ := ldap_get_values_lists_append env errors entry_dn attrs
  set q := ldap_get_values_lists env errors entry_dn attrs with hq
  clear_value q
  obtain ⟨sd, errsq, trq⟩ := q
  simp only at hs1
  subst hs1
  rcases sd with _ | items
  · exact ⟨s1, rfl⟩
  · cases hm : items.mapM firstOrNone with
    | ok vals =>
        have hm2 : List.mapM.loop firstOrNone items [] = Except.ok vals := hm
        exact ⟨s1, by simp [hm2]⟩
    | error u =>
        have hm2 : List.mapM.loop firstOrNone items [] = Except.error u := hm
        exact ⟨s1, by simp [hm2]⟩

/-- Is this library call a `simple_bind_s`? -/
def isBind : LdapEvent → Bool
  | .bindReq _ _ => true
  | _ => false

/-- An action step is never a bind. -/
theorem isBind_of_isAction {e : LdapEvent} (h : isAction e = true) :
    isBind e = false := by
  cases e <;> simp [isBind] <;> simp [isAction, isWrite] at h

/-- `addAction` emits only action events. -/
theorem addAction_events (env : LdapEnv) (entry_dn : String) (attrs : Attrs) :
    ∀ errs e, e ∈ (addAction env entry_dn attrs errs).2.2 →
      isAction e = true := by
  intro errs e he
  cases h : env.addFn entry_dn attrs with
  | ok v => simp [addAction, h] at he; subst he; rfl
  | error m => simp [addAction, h] at he; subst he; rfl

/-- `modifyAction` emits only action events. -/
theorem modifyAction_events (env : LdapEnv) (entry_dn : String)
    (mod_entry : List ModEntry) :
    ∀ errs e, e ∈ (modifyAction env entry_dn mod_entry errs).2.2 →
      isAction e = true := by
  intro errs e he
  cases h : env.modifyFn entry_dn mod_entry with
  | ok v => simp [modifyAction, h] at he; subst he; rfl
  | error m => simp [modifyAction, h] at he; subst he; rfl

/-- `deleteAction` emits only action events. -/
theorem deleteAction_events (env : LdapEnv) (entry_dn : String) :
    ∀ errs e, e ∈ (deleteAction env entry_dn errs).2.2 → isAction e = true := by
  intro errs e he
  cases h : env.deleteFn entry_dn with
  | ok v => simp [deleteAction, h] at he; subst he; rfl
  | error m => simp [deleteAction, h] at he; subst he; rfl

/-- `searchAction` emits only action events. -/
theorem searchAction_events (env : LdapEnv) (base_dn : String)
    (attrs : List String) (scope : Option Nat) (filter_str : Option String)
    (attrs_only : Bool) :
    ∀ errs e,
      e ∈ (searchAction env base_dn attrs scope filter_str attrs_only errs).2.2 →
      isAction e = true := by
  intro errs e he
  cases h : env.searchFn base_dn (pyOrNat scope SCOPE_BASE)
      (pyOrStr filter_str "(objectClass=*)") attrs
      (if attrs_only then 1 else 0) with
  | ok r => simp [searchAction, h] at he; subst he; rfl
  | error m => simp [searchAction, h] at he; subst he; rfl

/-- `changePwdAction` emits only action events. -/
theorem changePwdAction_events (env : LdapEnv) (user_dn new_pwd : String)
    (curr_pwd : Option String) :
    ∀ errs e, e ∈ (changePwdAction env user_dn new_pwd curr_pwd errs).2.2 →
      isAction e = true := by
  intro errs e he
  unfold changePwdAction at he
  cases hsec : isSecure env
  · rw [hsec] at he
    simp only [Bool.false_eq_true, if_false] at he
    cases h : env.modifyFn user_dn (pwdModList new_pwd) with
    | ok r => rw [h] at he; simp at he; subst he; rfl
    | error m => rw [h] at he; simp at he; subst he; rfl
  · rw [hsec] at he
    simp only [if_true] at he
    cases h : env.passwdFn user_dn curr_pwd new_pwd with
    | ok r => rw [h] at he; simp at he; subst he; rfl
    | error m => rw [h] at he; simp at he; subst he; rfl

/-- Whatever happens, the wrapper performs exactly one bind attempt with the
given credentials when the handle is obtained, provided the action emits only
action events. -/
theorem opWrapper_bind_events {α : Type} (env : LdapEnv) (errors : List String)
    (bdn bpwd : String)
    (action : List String → α × List String × List LdapEvent) (dflt : α)
    (hinit : env.initErr = none)
    (hact : ∀ errs e, e ∈ (action errs).2.2 → isAction e = true) :
    ((opWrapper env errors bdn bpwd action dflt).2.2).filter isBind
      = [LdapEvent.bindReq bdn bpwd] := by
  unfold opWrapper
  have hfz : ∀ errs, ((action errs).2.2).filter isBind = [] := by
    intro errs
    refine List.filter_eq_nil.mpr ?_
    intro e he
    simp [isBind_of_isAction (hact errs e he)]
  have p1 : isBind (LdapEvent.initConn env.uri) = false := rfl
  have p2 : isBind (LdapEvent.bindReq bdn bpwd) = true := rfl
  have p3 : isBind LdapEvent.unbindReq = false := rfl
  cases hbind : env.bindErr bdn bpwd with
  | none =>
      by_cases he : errors.isEmpty <;>
        cases hu : env.unbindErr <;>
          simp [ldap_init, hinit, ldap_bind, hbind, he, ldap_unbind, hu,
                List.filter_append, p1, p2, p3, hfz]
  | some m =>
      have hne : (errors ++ ["Error binding with the LDAP server: " ++ m]).isEmpty
          = false := by
        cases errors <;> rfl
      simp [ldap_init, hinit, ldap_bind, hbind, hne, List.filter_append,
            p1, p2, p3]

/-- When the caller-supplied error list is non-empty, the wrapper returns its
default result (the Python `result` initializer). -/
theorem opWrapper_skip_result {α : Type} (env : LdapEnv) (errors : List String)
    (bdn bpwd : String)
    (action : List String → α × List String × List LdapEvent) (dflt : α)
    (herr : errors ≠ []) :
    (opWrapper env errors bdn bpwd action dflt).1 = dflt := by
  unfold opWrapper
  have hne : errors.isEmpty = false := by
    cases errors with
    | nil => exact absurd rfl herr
    | cons a l => rfl
  cases hinit : env.initErr with
  | none =>
      cases hbind : env.bindErr bdn bpwd with
      | none => simp [ldap_init, hinit, ldap_bind, hbind, hne]
      | some m =>
          have hne2 : (errors ++ ["Error binding with the LDAP server: " ++ m]).isEmpty
              = false := by
            cases errors <;> rfl
          simp [ldap_init, hinit, ldap_bind, hbind, hne2]
  | some m =>
      have hne2 : (errors ++ ["Error initializing the LDAP client: " ++ m]).isEmpty
          = false := by
        cases errors <;> rfl
      simp [ldap_init, hinit, hne2]

/-- A `cn=<id>` search filter is never the empty string, so the Python
`filter_str or "(objectClass=*)"` keeps it. -/
theorem cnFilter_not_empty (uid : String) : ("cn=" ++ uid).isEmpty = false := by
  rw [Bool.eq_false_iff]
  intro h
  have h2 := (String.isEmpty_iff _).mp h
  have h3 : ("cn=" ++ uid).length = 0 := by rw [h2]; rfl
  have hl : "cn=".length = 3 := rfl
  rw [String.length_append, hl] at h3
  omega

/-- The full run of `ldap_search` on an empty error list when the handle is
obtained and the default bind succeeds. -/
theorem ldap_search_run (env : LdapEnv) (base_dn : String) (attrs : List String)
    (scope : Option Nat) (filter_str : Option String) (attrs_only : Bool)
    (hinit : env.initErr = none)
    (hbind : env.bindErr env.bindDN env.bindPwd = none) :
    ldap_search env [] base_dn attrs scope filter_str attrs_only
      = ((match env.searchFn base_dn (pyOrNat scope SCOPE_BASE)
            (pyOrStr filter_str "(objectClass=*)") attrs
            (if attrs_only then 1 else 0) with
          | .ok r => some r
          | .error _ => none),
         (ldap_unbind env
           (match env.searchFn base_dn (pyOrNat scope SCOPE_BASE)
              (pyOrStr filter_str "(objectClass=*)") attrs
              (if attrs_only then 1 else 0) with
            | .ok _ => []
            | .error m => ["Error on the LDAP search operation: " ++ m])).1,
         [LdapEvent.initConn env.uri,
          LdapEvent.bindReq env.bindDN env.bindPwd,
          LdapEvent.searchReq base_dn (pyOrNat scope SCOPE_BASE)
            (pyOrStr filter_str "(objectClass=*)") attrs
            (if attrs_only then 1 else 0),
          LdapEvent.unbindReq]) := by
  unfold ldap_search opWrapper ldap_init ldap_bind searchAction
  cases hs : env.searchFn base_dn (pyOrNat scope SCOPE_BASE)
      (pyOrStr filter_str "(objectClass=*)") attrs
      (if attrs_only then 1 else 0) <;>
    cases hu : env.unbindErr <;>
      simp [hinit, hbind, hs, ldap_unbind, hu]

/-- The full run of `ldap_search` on a non-empty error list when the handle
is obtained and the default bind and the unbind succeed: the search itself is
skipped. -/
theorem ldap_search_run_skip (env : LdapEnv) (errors : List String)
    (base_dn : String) (attrs : List String) (scope : Option Nat)
    (filter_str : Option String) (attrs_only : Bool)
    (herr : errors ≠ [])
    (hinit : env.initErr = none)
    (hbind : env.bindErr env.bindDN env.bindPwd = none)
    (hunbind : env.unbindErr = none) :
    ldap_search env errors base_dn attrs scope filter_str attrs_only
      = (none, errors,
         [LdapEvent.initConn env.uri,
          LdapEvent.bindReq env.bindDN env.bindPwd,
          LdapEvent.unbindReq]) := by
  have hne : errors.isEmpty = false := by
    cases errors with
    | nil => exact absurd rfl herr
    | cons a l => rfl
  unfold ldap_search opWrapper ldap_init ldap_bind ldap_unbind
  simp [hinit, hbind, hunbind, hne]

/-- Is this library call a `search_s`? -/
def isSearch : LdapEvent → Bool
  | .searchReq _ _ _ _ _ => true
  | _ => false

/-- C3: when the `cn=<id>` search under `cn=users,<base>` succeeds and finds
no entry, `ldap_modify_user` appends the not-found message to the
caller-supplied error list and issues no directory write. -/
theorem C3_modify_user_not_found (env : LdapEnv) (errors : List String)
    (user_id : String) (attrs : List (String × Option Bytes))
    (hinit : env.initErr = none)
    (hbind : env.bindErr env.bindDN env.bindPwd = none)
    (hunbind : env.unbindErr = none)
    (hsearch : env.searchFn ("cn=users," ++ env.baseDN) SCOPE_ONELEVEL
        ("cn=" ++ user_id) (attrs.map Prod.fst) 0 = .ok []) :
    (ldap_modify_user env errors user_id attrs).2.1
        = errors ++ [muNotFoundMsg user_id]
    ∧ (ldap_modify_user env errors user_id attrs).2.2.filter isWrite = [] := by
  have hfil : pyOrStr (some ("cn=" ++ user_id)) "(objectClass=*)"
      = "cn=" ++ user_id := by
    simp [pyOrStr, cnFilter_not_empty]
  have hsc : pyOrNat (some SCOPE_ONELEVEL) SCOPE_BASE = SCOPE_ONELEVEL := rfl
  by_cases he : errors = []
  · subst he
    have hrun := ldap_search_run env ("cn=users," ++ env.baseDN)
      (attrs.map Prod.fst) (some SCOPE_ONELEVEL) (some ("cn=" ++ user_id)) false
      hinit hbind
    rw [hsc, hfil] at hrun
    simp only [Bool.false_eq_true, if_false] at hrun
    rw [hsearch] at hrun
    simp only [ldap_unbind, hunbind] at hrun
    unfold ldap_modify_user
    rw [hrun]
    simp [isWrite]
  · have hrun := ldap_search_run_skip env errors ("cn=users," ++ env.baseDN)
      (attrs.map Prod.fst) (some SCOPE_ONELEVEL) (some ("cn=" ++ user_id)) false
      he hinit hbind hunbind
    unfold ldap_modify_user
    rw [hrun]
    have hne : (errors ++ [muNotFoundMsg user_id]).isEmpty = false := by
      cases errors <;> rfl
    simp [hne, isWrite]

/-- A concrete environment in which every library call succeeds and every
search finds nothing. -/
def envBase : LdapEnv :=
  { baseDN := "dc=example", bindDN := "cn=admin,dc=example",
    bindPwd := "adminpw", uri := "ldap://srv", initErr := none,
    bindErr := fun _ _ => none, unbindErr := none,
    searchFn := fun _ _ _ _ _ => .ok [],
    addFn := fun _ _ => .ok (), modifyFn := fun _ _ => .ok (),
    deleteFn := fun _ => .ok (), passwdFn := fun _ _ _ => .ok [] }

/-- Witness for C3 at a concrete input. -/
theorem C3_witness :
    (ldap_modify_user envBase [] "bob" [("mail", some [98])]).2.1
        = [] ++ [muNotFoundMsg "bob"]
    ∧ (ldap_modify_user envBase [] "bob" [("mail", some [98])]).2.2.filter isWrite
        = [] :=
  C3_modify_user_not_found envBase [] "bob" [("mail", some [98])]
    rfl rfl rfl rfl

/-- C6: with `scope` omitted the search runs with base-object scope, with
`filter_str` omitted it runs with the match-any filter, and `attrs_only`
maps to the protocol flag `attrsonly = 1` that suppresses value retrieval. -/
theorem C6_search_defaults (env : LdapEnv) (base_dn : String)
    (attrs : List String) (attrs_only : Bool)
    (hinit : env.initErr = none)
    (hbind : env.bindErr env.bindDN env.bindPwd = none) :
    ((ldap_search env [] base_dn attrs none none attrs_only).2.2).filter isSearch
      = [LdapEvent.searchReq base_dn SCOPE_BASE "(objectClass=*)" attrs
          (if attrs_only then 1 else 0)]
    ∧ (ldap_search env [] base_dn attrs none none attrs_only).1
      = (match env.searchFn base_dn SCOPE_BASE "(objectClass=*)" attrs
            (if attrs_only then 1 else 0) with
         | .ok r => some r
         | .error _ => none) := by
  have hrun := ldap_search_run env base_dn attrs none none attrs_only
    hinit hbind
  rw [show pyOrNat none SCOPE_BASE = SCOPE_BASE from rfl,
      show pyOrStr none "(objectClass=*)" = "(objectClass=*)" from rfl] at hrun
  rw [hrun]
  exact ⟨by simp [isSearch], rfl⟩

/-- A concrete environment whose search answers only a base-scoped,
match-any, names-only query on `dc=example`. -/
def envC6 : LdapEnv :=
  { envBase with
    searchFn := fun b sc fl _ ao =>
      if b = "dc=example" ∧ sc = 0 ∧ fl = "(objectClass=*)" ∧ ao = 1 then
        .ok [("dc=example", [("cn", [])])]
      else .error "unexpected query" }

/-- Witness for C6 at a concrete input. -/
theorem C6_witness :
    ((ldap_search envC6 [] "dc=example" ["cn"] none none true).2.2).filter isSearch
      = [LdapEvent.searchReq "dc=example" SCOPE_BASE "(objectClass=*)" ["cn"] 1]
    ∧ (ldap_search envC6 [] "dc=example" ["cn"] none none true).1
      = some [("dc=example", [("cn", [])])] := by
  have h := C6_search_defaults envC6 "dc=example" ["cn"] true rfl rfl
  refine ⟨by simpa using h.1, ?_⟩
  rw [h.2]
  rfl

/-- C7: a search that reaches the action step and matches no entries returns
the empty result and appends nothing to the caller-supplied error list. -/
theorem C7_search_empty_match (env : LdapEnv) (base_dn : String)
    (attrs : List String) (scope : Option Nat) (filter_str : Option String)
    (attrs_only : Bool)
    (hinit : env.initErr = none)
    (hbind : env.bindErr env.bindDN env.bindPwd = none)
    (hunbind : env.unbindErr = none)
    (hsearch : env.searchFn base_dn (pyOrNat scope SCOPE_BASE)
        (pyOrStr filter_str "(objectClass=*)") attrs
        (if attrs_only then 1 else 0) = .ok []) :
    (ldap_search env [] base_dn attrs scope filter_str attrs_only).1 = some []
    ∧ (ldap_search env [] base_dn attrs scope filter_str attrs_only).2.1
      = [] := by
  have hrun := ldap_search_run env base_dn attrs scope filter_str attrs_only
    hinit hbind
  rw [hsearch] at hrun
  rw [hrun]
  exact ⟨rfl, by simp [ldap_unbind, hunbind]⟩

/-- Witness for C7 at a concrete input. -/
theorem C7_witness :
    (ldap_search envBase [] "dc=example" ["cn"] none none false).1 = some []
    ∧ (ldap_search envBase [] "dc=example" ["cn"] none none false).2.1 = [] :=
  C7_search_empty_match envBase "dc=example" ["cn"] none none false
    rfl rfl rfl rfl

/-- C8: `ldap_get_value_list` returns the attribute's full value list as the
server returned it, and `ldap_get_value` returns exactly its first element,
or `None` when the list is absent or empty. -/
theorem C8_get_value_first (env : LdapEnv) (entry_dn attr dn0 : String)
    (d : Attrs) (rest : List (String × Attrs))
    (hinit : env.initErr = none)
    (hbind : env.bindErr env.bindDN env.bindPwd = none)
    (hsearch : env.searchFn entry_dn SCOPE_BASE "(objectClass=*)" [attr] 0
        = .ok ((dn0, d) :: rest)) :
    (ldap_get_value_list env [] entry_dn attr).1 = dictGet d attr
    ∧ (ldap_get_value env [] entry_dn attr).1
      = (dictGet d attr).bind List.head? := by
  have hrun := ldap_search_run env entry_dn [attr] none none false hinit hbind
  rw [show pyOrNat none SCOPE_BASE = SCOPE_BASE from rfl,
      show pyOrStr none "(objectClass=*)" = "(objectClass=*)" from rfl] at hrun
  simp only [Bool.false_eq_true, if_false] at hrun
  rw [hsearch] at hrun
  have h1 : (ldap_get_value_list env [] entry_dn attr).1 = dictGet d attr := by
    unfold ldap_get_value_list
    rw [hrun]
  refine ⟨h1, ?_⟩
  show (match (ldap_get_value_list env [] entry_dn attr).1 with
        | some (b :: _) => some b
        | _ => none) = (dictGet d attr).bind List.head?
  rw [h1]
  cases hdg : dictGet d attr with
  | none => rfl
  | some l => cases l <;> simp

/-- An environment whose search finds `uid=alice` with a three-valued
`mail` attribute. -/
def envC8 : LdapEnv :=
  { envBase with
    searchFn := fun _ _ _ _ _ =>
      .ok [("uid=alice,dc=example", [("mail", [[97], [98], [99]])])] }

/-- Witness for C8 at a concrete input: three values come back in order and
`get_value` picks the first. -/
theorem C8_witness :
    (ldap_get_value_list envC8 [] "uid=alice,dc=example" "mail").1
        = some [[97], [98], [99]]
    ∧ (ldap_get_value envC8 [] "uid=alice,dc=example" "mail").1
        = some [97] := by
  have h := C8_get_value_first envC8 "uid=alice,dc=example" "mail"
    "uid=alice,dc=example" [("mail", [[97], [98], [99]])] [] rfl rfl rfl
  exact ⟨by rw [h.1]; rfl, by rw [h.2]; rfl⟩

/-- C5: on the action step of `ldap_change_pwd`, a confidentiality-protected
transport (`ldaps:` scheme) selects the native `passwd_s` extension and the
caller receives the decoded server response; any other transport submits a
direct REPLACE of `userpassword` and the caller receives the supplied
password unchanged. -/
theorem C5_change_pwd_transport (env : LdapEnv) (user_dn new_pwd : String)
    (curr_pwd : Option String) (resp : Bytes)
    (hinit : env.initErr = none)
    (hbind : env.bindErr (if pyTruthyStr curr_pwd then user_dn else env.bindDN)
        (if pyTruthyStr curr_pwd then curr_pwd.getD "" else env.bindPwd)
        = none) :
    (isSecure env = true →
      env.passwdFn user_dn curr_pwd new_pwd = .ok resp →
      (ldap_change_pwd env [] user_dn new_pwd curr_pwd).1
          = some (bytesDecode resp)
      ∧ (ldap_change_pwd env [] user_dn new_pwd curr_pwd).2.2.filter isWrite
          = [LdapEvent.passwdReq user_dn curr_pwd new_pwd])
    ∧ (isSecure env = false →
      env.modifyFn user_dn (pwdModList new_pwd) = .ok () →
      (ldap_change_pwd env [] user_dn new_pwd curr_pwd).1 = some new_pwd
      ∧ (ldap_change_pwd env [] user_dn new_pwd curr_pwd).2.2.filter isWrite
          = [LdapEvent.modifyReq user_dn (pwdModList new_pwd)]) := by
  have heq : ldap_change_pwd env [] user_dn new_pwd curr_pwd
      = opWrapper env []
          (if pyTruthyStr curr_pwd then user_dn else env.bindDN)
          (if pyTruthyStr curr_pwd then curr_pwd.getD "" else env.bindPwd)
          (changePwdAction env user_dn new_pwd curr_pwd) none := rfl
  have hw := opWrapper_success env
      (if pyTruthyStr curr_pwd then user_dn else env.bindDN)
      (if pyTruthyStr curr_pwd then curr_pwd.getD "" else env.bindPwd)
      (changePwdAction env user_dn new_pwd curr_pwd) none hinit hbind
  constructor
  · intro hsec hp
    have ha : changePwdAction env user_dn new_pwd curr_pwd []
        = (some (bytesDecode resp), [],
           [LdapEvent.passwdReq user_dn curr_pwd new_pwd]) := by
      unfold changePwdAction
      rw [hsec]
      simp only [if_true]
      rw [hp]
    rw [heq, hw, ha]
    exact ⟨rfl, by simp [isWrite]⟩
  · intro hsec hm
    have ha : changePwdAction env user_dn new_pwd curr_pwd []
        = (some new_pwd, [],
           [LdapEvent.modifyReq user_dn (pwdModList new_pwd)]) := by
      unfold changePwdAction
      rw [hsec]
      simp only [Bool.false_eq_true, if_false]
      rw [hm]
    rw [heq, hw, ha]
    exact ⟨rfl, by simp [isWrite]⟩

/-- A secure-transport environment whose password-change extension returns a
server-generated password. -/
def envC5 : LdapEnv :=
  { envBase with
    uri := "ldaps://srv",
    passwdFn := fun _ _ _ => .ok (strEncode "srv-pw") }

/-- Witness for C5 at a concrete input: the caller receives the decoded
server response, which differs from the password it supplied. -/
theorem C5_witness :
    (ldap_change_pwd envC5 [] "uid=alice,dc=example" "newpass123" none).1
        = some "srv-pw"
    ∧ (ldap_change_pwd envC5 [] "uid=alice,dc=example"
        "newpass123" none).2.2.filter isWrite
        = [LdapEvent.passwdReq "uid=alice,dc=example" none "newpass123"]
    ∧ "srv-pw" ≠ "newpass123" := by
  have h := (C5_change_pwd_transport envC5 "uid=alice,dc=example" "newpass123"
      none (strEncode "srv-pw") rfl rfl).1 (by decide) rfl
  exact ⟨by rw [h.1]; rfl, h.2, by decide⟩

/-- C9 counterexample: a supplied-but-empty current password (`""`) is a
current password the caller supplied, yet the bind is performed with the
default service credentials rather than the user's DN — Python falsiness of
the empty string routes it to the default-bind branch. -/
theorem C9_counterexample :
    ((ldap_change_pwd envBase [] "uid=alice,dc=example" "npw"
        (some "")).2.2).filter isBind
      = [LdapEvent.bindReq "cn=admin,dc=example" "adminpw"]
    ∧ LdapEvent.bindReq "uid=alice,dc=example" "" ∉
        (ldap_change_pwd envBase [] "uid=alice,dc=example" "npw"
          (some "")).2.2 := by
  exact ⟨by decide, by decide⟩

/-- C9 (amended): when a non-empty current password is supplied the bind
uses the target user's DN and that password; when the current password is
absent or empty the bind uses the default service credentials. -/
theorem C9_change_pwd_bind (env : LdapEnv) (errors : List String)
    (user_dn new_pwd : String) (curr_pwd : Option String)
    (hinit : env.initErr = none) :
    (pyTruthyStr curr_pwd = true →
      ((ldap_change_pwd env errors user_dn new_pwd curr_pwd).2.2).filter isBind
        = [LdapEvent.bindReq user_dn (curr_pwd.getD "")])
    ∧ (pyTruthyStr curr_pwd = false →
      ((ldap_change_pwd env errors user_dn new_pwd curr_pwd).2.2).filter isBind
        = [LdapEvent.bindReq env.bindDN env.bindPwd]) := by
  have heq : ldap_change_pwd env errors user_dn new_pwd curr_pwd
      = opWrapper env errors
          (if pyTruthyStr curr_pwd then user_dn else env.bindDN)
          (if pyTruthyStr curr_pwd then curr_pwd.getD "" else env.bindPwd)
          (changePwdAction env user_dn new_pwd curr_pwd) none := rfl
  have h := opWrapper_bind_events env errors
      (if pyTruthyStr curr_pwd then user_dn else env.bindDN)
      (if pyTruthyStr curr_pwd then curr_pwd.getD "" else env.bindPwd)
      (changePwdAction env user_dn new_pwd curr_pwd) none hinit
      (changePwdAction_events env user_dn new_pwd curr_pwd)
  constructor
  · intro ht
    rw [heq, h, ht]
    simp
  · intro hf
    rw [heq, h, hf]
    simp

/-- Witness for C9 at a concrete input: a non-empty current password binds
as the user. -/
theorem C9_witness :
    ((ldap_change_pwd envBase [] "uid=alice,dc=example" "npw"
        (some "oldpw")).2.2).filter isBind
      = [LdapEvent.bindReq "uid=alice,dc=example" "oldpw"] := by
  have h := (C9_change_pwd_bind envBase [] "uid=alice,dc=example" "npw"
      (some "oldpw") rfl).1 (by decide)
  simpa using h

/-- An environment in which every bind attempt fails. -/
def envC4 : LdapEnv :=
  { envBase with bindErr := fun _ _ => some "invalid credentials" }

/-- C4 counterexample: the handle is obtained and a bind attempt is made
(the bind request is in the trace), yet because the bind failed `unbind_s`
is never invoked — the code unbinds only after a successful bind, not after
a mere attempt. -/
theorem C4_counterexample :
    (ldap_search envC4 [] "dc=example" ["cn"] none none false).2.2
      = [LdapEvent.initConn "ldap://srv",
         LdapEvent.bindReq "cn=admin,dc=example" "adminpw"]
    ∧ LdapEvent.unbindReq ∉
        (ldap_search envC4 [] "dc=example" ["cn"] none none false).2.2 := by
  exact ⟨by decide, by decide⟩

/-- C4 (amended): each of the five operations calls `unbind_s` exactly once
when the handle was obtained and its bind succeeded — even when the action
step fails, since the environment is arbitrary — and never otherwise; in
particular a failure to obtain a handle leaves no cleanup to perform. -/
theorem C4_unbind_bracketing (env : LdapEnv) (errors : List String)
    (entry_dn : String) (add_attrs : Attrs) (mods : List ModEntry)
    (base_dn : String) (attrs : List String) (scope : Option Nat)
    (filter_str : Option String) (attrs_only : Bool)
    (user_dn new_pwd : String) (curr_pwd : Option String) :
    unbindCount (ldap_add_entry env errors entry_dn add_attrs).2
      = (if env.initErr = none ∧ env.bindErr env.bindDN env.bindPwd = none
         then 1 else 0)
    ∧ unbindCount (ldap_modify_entry env errors entry_dn mods).2
      = (if env.initErr = none ∧ env.bindErr env.bindDN env.bindPwd = none
         then 1 else 0)
    ∧ unbindCount (ldap_delete_entry env errors entry_dn).2
      = (if env.initErr = none ∧ env.bindErr env.bindDN env.bindPwd = none
         then 1 else 0)
    ∧ unbindCount
        (ldap_search env errors base_dn attrs scope filter_str attrs_only).2.2
      = (if env.initErr = none ∧ env.bindErr env.bindDN env.bindPwd = none
         then 1 else 0)
    ∧ unbindCount (ldap_change_pwd env errors user_dn new_pwd curr_pwd).2.2
      = (if env.initErr = none
            ∧ env.bindErr
                (if pyTruthyStr curr_pwd then user_dn else env.bindDN)
                (if pyTruthyStr curr_pwd then curr_pwd.getD "" else env.bindPwd)
              = none
         then 1 else 0) := by
  refine ⟨?_, ?_, ?_, ?_, ?_⟩
  · exact opWrapper_unbind env errors _ _ _ _
      (addAction_events env entry_dn add_attrs)
  · exact opWrapper_unbind env errors _ _ _ _
      (modifyAction_events env entry_dn mods)
  · exact opWrapper_unbind env errors _ _ _ _ (deleteAction_events env entry_dn)
  · exact opWrapper_unbind env errors _ _ _ _
      (searchAction_events env base_dn attrs scope filter_str attrs_only)
  · exact opWrapper_unbind env errors _ _ _ _
      (changePwdAction_events env user_dn new_pwd curr_pwd)

/-- The modification prescribed by the spec's wording for claim C1 (stated
from the spec, for comparison with the code): REPLACE when the new value is
present, differs from the current first value and a current value exists;
ADD when it is present and no current value exists; DELETE when it is
absent/null and a current value exists; nothing when the values are equal. -/
def specModEntry (attr_name : String) (new_value : Option Bytes)
    (entry_list : Option (List Bytes)) : Option ModEntry :=
  match new_value with
  | some v =>
      match entry_list with
      | some (c :: _) =>
          if v ≠ c then some (MOD_REPLACE, attr_name, some v) else none
      | _ => some (MOD_ADD, attr_name, some v)
  | none =>
      match entry_list with
      | some (_ :: _) => some (MOD_DELETE, attr_name, none)
      | _ => none

/-- The modification the code emits for one pair, stated as a function of the
entry dictionary: the amended prescription, with "present" refined to
"present and non-empty" and "absent/null" refined to "absent, null or
empty", matching Python truthiness of `bytes`. -/
def amendedModEntry (d : Attrs) (attr_name : String)
    (new_value : Option Bytes) : Option ModEntry :=
  if pyTruthyBytes new_value then
    match dictGet d attr_name with
    | some (c :: _) =>
        if new_value = some c then none
        else some (MOD_REPLACE, attr_name, new_value)
    | _ => some (MOD_ADD, attr_name, new_value)
  else
    if pyTruthyList (dictGet d attr_name) then
      some (MOD_DELETE, attr_name, none)
    else none

/-- In a well-formed entry dictionary (as an LDAP server returns it) every
value list is non-empty, so `dict.get` never yields an empty list. -/
theorem dictGet_ne_nil (d : Attrs) (hwf : ∀ p ∈ d, p.2 ≠ []) (a : String)
    (l : List Bytes) (h : dictGet d a = some l) : l ≠ [] := by
  unfold dictGet at h
  cases hf : d.find? (fun p => p.1 == a) with
  | none => rw [hf] at h; simp at h
  | some p =>
      rw [hf] at h
      simp at h
      subst h
      exact hwf p (List.mem_of_find?_eq_some hf)

/-- On a well-formed entry dictionary, one iteration of the
modification-list loop never raises and produces exactly the amended
prescription. -/
theorem modEntryFor_eq_amended (d : Attrs) (a : String) (nv : Option Bytes)
    (hwf : ∀ p ∈ d, p.2 ≠ []) :
    modEntryFor d a nv = .ok (amendedModEntry d a nv) := by
  unfold modEntryFor amendedModEntry
  cases hnv : pyTruthyBytes nv
  · simp only [Bool.false_eq_true, if_false]
    split <;> rfl
  · simp only [if_true]
    cases hdg : dictGet d a with
    | none => rfl
    | some l =>
        cases l with
        | nil => exact absurd rfl (dictGet_ne_nil d hwf a [] hdg)
        | cons c tl =>
            by_cases hc : nv = some c
            · simp [hc]
            · simp [hc]

/-- On a well-formed entry dictionary the whole modification-list loop never
raises and produces the amended prescription for every pair, in order. -/
theorem buildModEntries_eq_amended (d : Attrs)
    (attrs : List (String × Option Bytes)) (hwf : ∀ p ∈ d, p.2 ≠ []) :
    buildModEntries d attrs
      = .ok (attrs.filterMap fun p => amendedModEntry d p.1 p.2) := by
  induction attrs with
  | nil => rfl
  | cons p rest ih =>
      obtain ⟨a, nv⟩ := p
      unfold buildModEntries
      rw [modEntryFor_eq_amended d a nv hwf]
      rw [ih]
      simp only [List.filterMap_cons]
      cases amendedModEntry d a nv <;> rfl

/-- The write issued by a full `ldap_modify_entry` run on an empty error
list when the handle is obtained and the default bind succeeds. -/
theorem ldap_modify_entry_writes (env : LdapEnv) (entry_dn : String)
    (mods : List ModEntry)
    (hinit : env.initErr = none)
    (hbind : env.bindErr env.bindDN env.bindPwd = none) :
    ((ldap_modify_entry env [] entry_dn mods).2).filter isWrite
      = [LdapEvent.modifyReq entry_dn mods] := by
  unfold ldap_modify_entry opWrapper ldap_init ldap_bind modifyAction
  cases hm : env.modifyFn entry_dn mods <;>
    cases hu : env.unbindErr <;>
      simp [hinit, hbind, hm, ldap_unbind, hu, isWrite]

/-- An environment whose search finds `cn=bob` with current `mail` value
`[104]` (`b"h"`). -/
def envC1 : LdapEnv :=
  { envBase with
    searchFn := fun _ _ _ _ _ =>
      .ok [("cn=bob,cn=users,dc=example", [("mail", [[104]])])] }

/-- C1 counterexample: for the pair `("mail", b"")` the new value is present
(not absent/null) and differs from the current first value `b"h"`, so the
claim prescribes a REPLACE; the code instead emits a DELETE, because Python
falsiness of the empty byte string routes the pair to the deletion branch. -/
theorem C1_counterexample :
    (ldap_modify_user envC1 [] "bob" [("mail", some [])]).2.2.filter isWrite
      = [LdapEvent.modifyReq "cn=bob,cn=users,dc=example"
          [(MOD_DELETE, "mail", none)]]
    ∧ specModEntry "mail" (some []) (some [[104]])
      = some (MOD_REPLACE, "mail", some [])
    ∧ ((MOD_DELETE, "mail", (none : Option Bytes)) : ModEntry)
      ≠ (MOD_REPLACE, "mail", some []) := by
  exact ⟨by decide, by decide, by decide⟩

/-- C1 (amended): on a well-formed entry, each desired pair emits REPLACE
when the new value is non-empty, differs from the current first value and a
current value exists; ADD when it is non-empty and no current value exists;
DELETE when it is absent, null or empty and a current value exists; nothing
when the values are equal — and the accumulated list is applied in a single
`modify` call exactly when it is non-empty. -/
theorem C1_reconcile_modes (env : LdapEnv) (user_id : String)
    (attrs : List (String × Option Bytes)) (entry_dn : String) (d : Attrs)
    (rest : List (String × Attrs))
    (hinit : env.initErr = none)
    (hbind : env.bindErr env.bindDN env.bindPwd = none)
    (hunbind : env.unbindErr = none)
    (hsearch : env.searchFn ("cn=users," ++ env.baseDN) SCOPE_ONELEVEL
        ("cn=" ++ user_id) (attrs.map Prod.fst) 0
        = .ok ((entry_dn, d) :: rest))
    (hwf : ∀ p ∈ d, p.2 ≠ []) :
    (ldap_modify_user env [] user_id attrs).2.2.filter isWrite
      = (if (attrs.filterMap fun p => amendedModEntry d p.1 p.2).length > 0
         then [LdapEvent.modifyReq entry_dn
                (attrs.filterMap fun p => amendedModEntry d p.1 p.2)]
         else []) := by
  have hfil : pyOrStr (some ("cn=" ++ user_id)) "(objectClass=*)"
      = "cn=" ++ user_id := by simp [pyOrStr, cnFilter_not_empty]
  have hsc : pyOrNat (some SCOPE_ONELEVEL) SCOPE_BASE = SCOPE_ONELEVEL := rfl
  have hrun := ldap_search_run env ("cn=users," ++ env.baseDN)
    (attrs.map Prod.fst) (some SCOPE_ONELEVEL) (some ("cn=" ++ user_id)) false
    hinit hbind
  rw [hsc, hfil] at hrun
  simp only [Bool.false_eq_true, if_false] at hrun
  rw [hsearch] at hrun
  simp only [ldap_unbind, hunbind] at hrun
  unfold ldap_modify_user
  rw [hrun]
  simp only [buildModEntries_eq_amended d attrs hwf]
  by_cases hlen : (attrs.filterMap fun p => amendedModEntry d p.1 p.2).length > 0
  · have hw := ldap_modify_entry_writes env entry_dn
      (attrs.filterMap fun p => amendedModEntry d p.1 p.2) hinit hbind
    simp [hlen, List.filter_append, isWrite, hw]
  · simp [hlen, isWrite]

/-- An entry dictionary for the C1 witness: `mail` is `b"h"`, `sn` is
`b"s"`. -/
def dC1w : Attrs := [("mail", [[104]]), ("sn", [[115]])]

/-- An environment whose search finds `cn=bob` with dictionary `dC1w`. -/
def envC1w : LdapEnv :=
  { envBase with
    searchFn := fun _ _ _ _ _ => .ok [("cn=bob,cn=users,dc=example", dC1w)] }

/-- Witness for C1 at a concrete input: one REPLACE (differing `mail`), one
ADD (absent `cn`), nothing for the equal `sn` and the absent-and-null
`desc`, all in one modify call. -/
theorem C1_witness :
    (ldap_modify_user envC1w [] "bob"
        [("mail", some [105]), ("cn", some [99]),
         ("sn", some [115]), ("desc", none)]).2.2.filter isWrite
      = [LdapEvent.modifyReq "cn=bob,cn=users,dc=example"
          [(MOD_REPLACE, "mail", some [105]), (MOD_ADD, "cn", some [99])]] := by
  have h := C1_reconcile_modes envC1w "bob"
    [("mail", some [105]), ("cn", some [99]),
     ("sn", some [115]), ("desc", none)]
    "cn=bob,cn=users,dc=example" dC1w [] rfl rfl rfl rfl (by decide)
  rw [h]
  rfl

/-- An environment whose search finds `cn=bob` with the empty byte string as
the single current `mail` value. -/
def envC2 : LdapEnv :=
  { envBase with
    searchFn := fun _ _ _ _ _ =>
      .ok [("cn=bob,cn=users,dc=example", [("mail", [([] : Bytes)])])] }

/-- C2 counterexample: the desired new value `b""` equals the entry's
current first value for `mail`, yet the reconciliation issues a directory
write (a DELETE), because Python falsiness of the empty byte string routes
the equal pair to the deletion branch. -/
theorem C2_counterexample :
    some ([] : Bytes)
        = (dictGet [("mail", [([] : Bytes)])] "mail").bind List.head?
    ∧ (ldap_modify_user envC2 [] "bob" [("mail", some [])]).2.2.filter isWrite
        ≠ [] := by
  exact ⟨by decide, by decide⟩

/-- When every desired pair carries a non-empty value equal to the entry's
current first value, the modification loop emits nothing. -/
theorem buildModEntries_idempotent (d : Attrs)
    (attrs : List (String × Option Bytes))
    (h : ∀ p ∈ attrs, ∃ v tl, p.2 = some v ∧ v ≠ []
        ∧ dictGet d p.1 = some (v :: tl)) :
    buildModEntries d attrs = .ok [] := by
  induction attrs with
  | nil => rfl
  | cons p rest ih =>
      obtain ⟨a, nv⟩ := p
      obtain ⟨v, tl, hnv, hv, hdg⟩ := h (a, nv) (List.mem_cons_self _ _)
      simp only at hnv
      subst hnv
      have hfor : modEntryFor d a (some v) = .ok none := by
        unfold modEntryFor
        cases v with
        | nil => exact absurd rfl hv
        | cons b bs =>
            simp only [pyTruthyBytes, List.isEmpty_cons, Bool.not_false,
              if_true]
            rw [hdg]
            simp
      unfold buildModEntries
      rw [hfor, ih (fun q hq => h q (List.mem_cons_of_mem _ hq))]
      rfl

/-- The wrapper trace contains no writes when its action emits none. -/
theorem opWrapper_no_writes {α : Type} (env : LdapEnv) (errors : List String)
    (bdn bpwd : String)
    (action : List String → α × List String × List LdapEvent) (dflt : α)
    (hact : ∀ errs e, e ∈ (action errs).2.2 → isWrite e = false) :
    ((opWrapper env errors bdn bpwd action dflt).2.2).filter isWrite = [] := by
  unfold opWrapper
  have hfz : ∀ errs, ((action errs).2.2).filter isWrite = [] := by
    intro errs
    refine List.filter_eq_nil_iff.mpr ?_
    intro e he
    simp [hact errs e he]
  have p1 : isWrite (LdapEvent.initConn env.uri) = false := rfl
  have p2 : isWrite (LdapEvent.bindReq bdn bpwd) = false := rfl
  have p3 : isWrite LdapEvent.unbindReq = false := rfl
  cases hinit : env.initErr with
  | none =>
      cases hbind : env.bindErr bdn bpwd with
      | none =>
          by_cases he : errors.isEmpty <;>
            cases hu : env.unbindErr <;>
              simp [ldap_init, hinit, ldap_bind, hbind, he, ldap_unbind, hu,
                    List.filter_append, p1, p2, p3, hfz]
      | some m =>
          have hne : (errors
              ++ ["Error binding with the LDAP server: " ++ m]).isEmpty
              = false := by
            cases errors <;> rfl
          simp [ldap_init, hinit, ldap_bind, hbind, hne, List.filter_append,
                p1, p2, p3]
  | some m =>
      have hne : (errors
          ++ ["Error initializing the LDAP client: " ++ m]).isEmpty
          = false := by
        cases errors <;> rfl
      simp [ldap_init, hinit, hne]

/-- `searchAction` never emits a write. -/
theorem searchAction_no_writes (env : LdapEnv) (base_dn : String)
    (attrs : List String) (scope : Option Nat) (filter_str : Option String)
    (attrs_only : Bool) :
    ∀ errs e,
      e ∈ (searchAction env base_dn attrs scope filter_str attrs_only errs).2.2 →
      isWrite e = false := by
  intro errs e he
  cases h : env.searchFn base_dn (pyOrNat scope SCOPE_BASE)
      (pyOrStr filter_str "(objectClass=*)") attrs
      (if attrs_only then 1 else 0) with
  | ok r => simp [searchAction, h] at he; subst he; rfl
  | error m => simp [searchAction, h] at he; subst he; rfl

/-- A whole `ldap_search` run never writes to the directory. -/
theorem ldap_search_no_writes (env : LdapEnv) (errors : List String)
    (base_dn : String) (attrs : List String) (scope : Option Nat)
    (filter_str : Option String) (attrs_only : Bool) :
    ((ldap_search env errors base_dn attrs scope filter_str attrs_only).2.2).filter
        isWrite = [] :=
  opWrapper_no_writes env errors _ _ _ _
    (searchAction_no_writes env base_dn attrs scope filter_str attrs_only)

/-- `ldap_get_value` issues exactly the library calls of its inner search. -/
theorem ldap_get_value_trace (env : LdapEnv) (errors : List String)
    (entry_dn attr : String) :
    (ldap_get_value env errors entry_dn attr).2.2
      = (ldap_search env errors entry_dn [attr] none none false).2.2 := by
  unfold ldap_get_value ldap_get_value_list
  set q := ldap_search env errors entry_dn [attr] none none false with hq
  clear_value q
  obtain ⟨sd, errsq, trq⟩ := q
  rcases sd with _ | (_ | ⟨⟨dn0, dd⟩, tl⟩) <;> rfl

/-- C2 (amended): the reconciliation operations issue zero directory writes
when the desired values equal the current values — for `ldap_modify_user`
whenever every desired pair carries a non-empty new value equal to the
entry's current first value, and for `ldap_set_value` whenever the value
equals the current value, unconditionally. -/
theorem C2_reconcile_idempotent :
    (∀ (env : LdapEnv) (user_id : String)
       (attrs : List (String × Option Bytes)) (entry_dn : String) (d : Attrs)
       (rest : List (String × Attrs)),
      env.initErr = none →
      env.bindErr env.bindDN env.bindPwd = none →
      env.unbindErr = none →
      env.searchFn ("cn=users," ++ env.baseDN) SCOPE_ONELEVEL
          ("cn=" ++ user_id) (attrs.map Prod.fst) 0
        = .ok ((entry_dn, d) :: rest) →
      (∀ p ∈ attrs, ∃ v tl, p.2 = some v ∧ v ≠ []
          ∧ dictGet d p.1 = some (v :: tl)) →
      (ldap_modify_user env [] user_id attrs).2.2.filter isWrite = [])
    ∧ (∀ (env : LdapEnv) (errors : List String) (entry_dn attr : String)
         (value : Option Bytes),
        value = (ldap_get_value env errors entry_dn attr).1 →
        ((ldap_set_value env errors entry_dn attr value).2).filter isWrite
          = []) := by
  constructor
  · intro env user_id attrs entry_dn d rest hinit hbind hunbind hsearch heqv
    have hfil : pyOrStr (some ("cn=" ++ user_id)) "(objectClass=*)"
        = "cn=" ++ user_id := by simp [pyOrStr, cnFilter_not_empty]
    have hsc : pyOrNat (some SCOPE_ONELEVEL) SCOPE_BASE = SCOPE_ONELEVEL := rfl
    have hrun := ldap_search_run env ("cn=users," ++ env.baseDN)
      (attrs.map Prod.fst) (some SCOPE_ONELEVEL) (some ("cn=" ++ user_id))
      false hinit hbind
    rw [hsc, hfil] at hrun
    simp only [Bool.false_eq_true, if_false] at hrun
    rw [hsearch] at hrun
    simp only [ldap_unbind, hunbind] at hrun
    unfold ldap_modify_user
    rw [hrun]
    simp only [buildModEntries_idempotent d attrs heqv]
    simp [isWrite]
  · intro env errors entry_dn attr value hval
    have htr : ((ldap_get_value env errors entry_dn attr).2.2).filter isWrite
        = [] := by
      rw [ldap_get_value_trace]
      exact ldap_search_no_writes env errors entry_dn [attr] none none false
    subst hval
    unfold ldap_set_value
    set q := ldap_get_value env errors entry_dn attr with hq
    clear_value q
    obtain ⟨curr, errsq, trq⟩ := q
    simp only at htr
    by_cases he : errsq.isEmpty
    · rcases curr with _ | c
      · simpa [he] using htr
      · simpa [he] using htr
    · simpa [he] using htr

/-- Witness for C2 at a concrete input: the desired `mail` value equals the
current one and no write is issued. -/
theorem C2_witness :
    (ldap_modify_user envC1 [] "bob"
        [("mail", some [104])]).2.2.filter isWrite = [] := by
  have h := C2_reconcile_idempotent.1 envC1 "bob" [("mail", some [104])]
    "cn=bob,cn=users,dc=example" [("mail", [[104]])] [] rfl rfl rfl rfl
    (by
      intro p hp
      simp at hp
      subst hp
      exact ⟨[104], [], rfl, by decide, rfl⟩)
  exact h

/-- C10: every public operation only appends to the caller-supplied error
list (every entry present on entry is preserved, unmodified and in place),
and for the wrapper operations a non-empty error list on entry suppresses
the action step entirely while connection initialization and the bind are
still attempted. -/
theorem C10_append_only_and_skip :
    (∀ (env : LdapEnv) (errors : List String),
      ∃ s, (ldap_init env errors).2.1 = errors ++ s)
  ∧ (∀ (env : LdapEnv) (errors : List String) (bdn bpwd : String),
      ∃ s, (ldap_bind env errors bdn bpwd).2.1 = errors ++ s)
  ∧ (∀ (env : LdapEnv) (errors : List String),
      ∃ s, (ldap_unbind env errors).1 = errors ++ s)
  ∧ (∀ (env : LdapEnv) (errors : List String) (entry_dn : String)
       (attrs : Attrs),
      ∃ s, (ldap_add_entry env errors entry_dn attrs).1 = errors ++ s)
  ∧ (∀ (env : LdapEnv) (errors : List String) (entry_dn : String)
       (mods : List ModEntry),
      ∃ s, (ldap_modify_entry env errors entry_dn mods).1 = errors ++ s)
  ∧ (∀ (env : LdapEnv) (errors : List String) (entry_dn : String),
      ∃ s, (ldap_delete_entry env errors entry_dn).1 = errors ++ s)
  ∧ (∀ (env : LdapEnv) (errors : List String) (base_dn : String)
       (attrs : List String) (scope : Option Nat) (filter_str : Option String)
       (attrs_only : Bool),
      ∃ s, (ldap_search env errors base_dn attrs scope filter_str
              attrs_only).2.1 = errors ++ s)
  ∧ (∀ (env : LdapEnv) (errors : List String) (user_dn new_pwd : String)
       (curr_pwd : Option String),
      ∃ s, (ldap_change_pwd env errors user_dn new_pwd curr_pwd).2.1
        = errors ++ s)
  ∧ (∀ (env : LdapEnv) (errors : List String) (user_id : String)
       (attrs : List (String × Option Bytes)),
      ∃ s, (ldap_modify_user env errors user_id attrs).2.1 = errors ++ s)
  ∧ (∀ (env : LdapEnv) (errors : List String) (entry_dn attr : String),
      ∃ s, (ldap_get_value_list env errors entry_dn attr).2.1 = errors ++ s)
  ∧ (∀ (env : LdapEnv) (errors : List String) (entry_dn attr : String),
      ∃ s, (ldap_get_value env errors entry_dn attr).2.1 = errors ++ s)
  ∧ (∀ (env : LdapEnv) (errors : List String) (entry_dn attr : String)
       (value : Bytes),
      ∃ s, (ldap_add_value env errors entry_dn attr value).1 = errors ++ s)
  ∧ (∀ (env : LdapEnv) (errors : List String) (entry_dn attr : String)
       (value : Option Bytes),
      ∃ s, (ldap_set_value env errors entry_dn attr value).1 = errors ++ s)
  ∧ (∀ (env : LdapEnv) (errors : List String) (entry_dn : String)
       (attrs : List String),
      ∃ s, (ldap_get_values_lists env errors entry_dn attrs).2.1
        = errors ++ s)
  ∧ (∀ (env : LdapEnv) (errors : List String) (entry_dn : String)
       (attrs : List String),
      ∃ s, (ldap_get_values env errors entry_dn attrs).2.2.1 = errors ++ s)
  ∧ (∀ (env : LdapEnv) (errors : List String) (entry_dn : String)
       (attrs : Attrs),
      errors ≠ [] →
      ((ldap_add_entry env errors entry_dn attrs).2).filter isAction = []
      ∧ (env.initErr = none →
          LdapEvent.initConn env.uri
              ∈ (ldap_add_entry env errors entry_dn attrs).2
          ∧ LdapEvent.bindReq env.bindDN env.bindPwd
              ∈ (ldap_add_entry env errors entry_dn attrs).2))
  ∧ (∀ (env : LdapEnv) (errors : List String) (entry_dn : String)
       (mods : List ModEntry),
      errors ≠ [] →
      ((ldap_modify_entry env errors entry_dn mods).2).filter isAction = []
      ∧ (env.initErr = none →
          LdapEvent.initConn env.uri
              ∈ (ldap_modify_entry env errors entry_dn mods).2
          ∧ LdapEvent.bindReq env.bindDN env.bindPwd
              ∈ (ldap_modify_entry env errors entry_dn mods).2))
  ∧ (∀ (env : LdapEnv) (errors : List String) (entry_dn : String),
      errors ≠ [] →
      ((ldap_delete_entry env errors entry_dn).2).filter isAction = []
      ∧ (env.initErr = none →
          LdapEvent.initConn env.uri
              ∈ (ldap_delete_entry env errors entry_dn).2
          ∧ LdapEvent.bindReq env.bindDN env.bindPwd
              ∈ (ldap_delete_entry env errors entry_dn).2))
  ∧ (∀ (env : LdapEnv) (errors : List String) (base_dn : String)
       (attrs : List String) (scope : Option Nat) (filter_str : Option String)
       (attrs_only : Bool),
      errors ≠ [] →
      ((ldap_search env errors base_dn attrs scope filter_str
          attrs_only).2.2).filter isAction = []
      ∧ (env.initErr = none →
          LdapEvent.initConn env.uri
              ∈ (ldap_search env errors base_dn attrs scope filter_str
                  attrs_only).2.2
          ∧ LdapEvent.bindReq env.bindDN env.bindPwd
              ∈ (ldap_search env errors base_dn attrs scope filter_str
                  attrs_only).2.2))
  ∧ (∀ (env : LdapEnv) (errors : List String) (user_dn new_pwd : String)
       (curr_pwd : Option String),
      errors ≠ [] →
      ((ldap_change_pwd env errors user_dn new_pwd curr_pwd).2.2).filter
          isAction = []
      ∧ (env.initErr = none →
          LdapEvent.initConn env.uri
              ∈ (ldap_change_pwd env errors user_dn new_pwd curr_pwd).2.2
          ∧ LdapEvent.bindReq
              (if pyTruthyStr curr_pwd then user_dn else env.bindDN)
              (if pyTruthyStr curr_pwd then curr_pwd.getD "" else env.bindPwd)
              ∈ (ldap_change_pwd env errors user_dn new_pwd curr_pwd).2.2)) := by
  refine ⟨ldap_init_append, ldap_bind_append, ldap_unbind_append,
    ldap_add_entry_append, ldap_modify_entry_append, ldap_delete_entry_append,
    ldap_search_append, ldap_change_pwd_append, ldap_modify_user_append,
    ldap_get_value_list_append, ldap_get_value_append, ldap_add_value_append,
    ldap_set_value_append, ldap_get_values_lists_append,
    ldap_get_values_append, ?_, ?_, ?_, ?_, ?_⟩
  · intro env errors entry_dn attrs herr
    refine ⟨List.filter_eq_nil_iff.mpr ?_, fun hinit =>
      opWrapper_still_binds env errors env.bindDN env.bindPwd
        (addAction env entry_dn attrs) () hinit⟩
    intro e he
    simp [opWrapper_skip env errors env.bindDN env.bindPwd
      (addAction env entry_dn attrs) () herr e he]
  · intro env errors entry_dn mods herr
    refine ⟨List.filter_eq_nil_iff.mpr ?_, fun hinit =>
      opWrapper_still_binds env errors env.bindDN env.bindPwd
        (modifyAction env entry_dn mods) () hinit⟩
    intro e he
    simp [opWrapper_skip env errors env.bindDN env.bindPwd
      (modifyAction env entry_dn mods) () herr e he]
  · intro env errors entry_dn herr
    refine ⟨List.filter_eq_nil_iff.mpr ?_, fun hinit =>
      opWrapper_still_binds env errors env.bindDN env.bindPwd
        (deleteAction env entry_dn) () hinit⟩
    intro e he
    simp [opWrapper_skip env errors env.bindDN env.bindPwd
      (deleteAction env entry_dn) () herr e he]
  · intro env errors base_dn attrs scope filter_str attrs_only herr
    refine ⟨List.filter_eq_nil_iff.mpr ?_, fun hinit =>
      opWrapper_still_binds env errors env.bindDN env.bindPwd
        (searchAction env base_dn attrs scope filter_str attrs_only)
        none hinit⟩
    intro e he
    simp [opWrapper_skip env errors env.bindDN env.bindPwd
      (searchAction env base_dn attrs scope filter_str attrs_only)
      none herr e he]
  · intro env errors user_dn new_pwd curr_pwd herr
    refine ⟨List.filter_eq_nil_iff.mpr ?_, fun hinit =>
      opWrapper_still_binds env errors
        (if pyTruthyStr curr_pwd then user_dn else env.bindDN)
        (if pyTruthyStr curr_pwd then curr_pwd.getD "" else env.bindPwd)
        (changePwdAction env user_dn new_pwd curr_pwd) none hinit⟩
    intro e he
    simp [opWrapper_skip env errors
      (if pyTruthyStr curr_pwd then user_dn else env.bindDN)
      (if pyTruthyStr curr_pwd then curr_pwd.getD "" else env.bindPwd)
      (changePwdAction env user_dn new_pwd curr_pwd) none herr e he]

/-- Witness for C10 at a concrete input: a pre-populated error list leads to
a run with no action step, yet the handle is obtained and the bind is
attempted. -/
theorem C10_witness :
    ((ldap_add_entry envBase ["boom"] "cn=x,dc=example"
        [("cn", [[120]])]).2).filter isAction = []
    ∧ LdapEvent.initConn envBase.uri
        ∈ (ldap_add_entry envBase ["boom"] "cn=x,dc=example"
            [("cn", [[120]])]).2
    ∧ LdapEvent.bindReq envBase.bindDN envBase.bindPwd
        ∈ (ldap_add_entry envBase ["boom"] "cn=x,dc=example"
            [("cn", [[120]])]).2 := by
  have h := C10_append_only_and_skip.2.2.2.2.2.2.2.2.2.2.2.2.2.2.2.1
    envBase ["boom"] "cn=x,dc=example" [("cn", [[120]])] (by decide)
  exact ⟨h.1, h.2 rfl⟩
